import Mathlib

/-
Verification of the gz-sim DetachableJoint system
(src/systems/detachable_joint/DetachableJoint.cc) and the typed event
channels of the ignition::gazebo::events header, as a shallow embedding.

Entities are natural numbers with kNullEntity = 0.  The entity-component
manager (ECM) is a black-box collaborator of this system: its query side
is modelled as a record of lookup functions and its mutation side as an
explicit log (fresh-entity counter, created joint components, removal
requests), so that each PreUpdate call threads the mutation state and
can be inspected for store mutations.
-/

namespace GzSim

abbrev Entity := Nat

def kNullEntity : Entity := 0

/-- Modelled from the spec: the entity store is an external collaborator
(section 1 excludes it from the sources); this record is its query
interface consumed by the system: model validity, model name, model
lookup by name, and link lookup by parent entity and name
(EntityByComponents with Link, ParentEntity and Name filters, which is
also what Model::LinkByName performs). -/
structure EcmEnv where
  validModel : Entity → Bool
  modelNameOf : Entity → String
  modelByName : String → Entity
  linkByParentName : Entity → String → Entity

/-- Modelled from the spec: mutation side of the black-box entity store.
`nextEntity` is the fresh-id counter (created entities are non-null),
`joints` records each created detachable-joint component as
(joint entity, parent link, child link, joint type), and
`removeRequests` records each RequestRemoveEntity call. -/
structure EcmState where
  nextEntity : Nat
  joints : List (Entity × Entity × Entity × String)
  removeRequests : List Entity
deriving DecidableEq

/-- Modelled from the spec: CreateEntity returns a fresh non-null entity
id from the store. -/
def EcmState.createEntity (st : EcmState) : Entity × EcmState :=
  (st.nextEntity + 1, { st with nextEntity := st.nextEntity + 1 })

/-- Modelled from the spec: CreateComponent attaching a DetachableJoint
component (parent link, child link, joint type) to entity `j`. -/
def EcmState.createJointComponent (st : EcmState) (j p c : Entity) (t : String) : EcmState :=
  { st with joints := (j, p, c, t) :: st.joints }

/-- Modelled from the spec: RequestRemoveEntity records a removal
request; removal is requested, not performed synchronously. -/
def EcmState.requestRemoveEntity (st : EcmState) (e : Entity) : EcmState :=
  { st with removeRequests := e :: st.removeRequests }

/-- The SDF configuration element as consumed by Configure: each
recognized option is present or absent. -/
structure Sdf where
  parentLink : Option String
  childModel : Option String
  childLink : Option String
  topic : Option String
  suppressChildWarning : Option Bool

/-- Console output events of the system (gzerr / gzwarn / gzmsg / gzdbg
lines), used to state which diagnostics each call emits. -/
inductive LogEvent
  | errNotModel
  | errParentLinkNotFound (name : String)
  | errMissingParam (name : String)
  | childModelNotFound (name : String)
  | childLinkNotFound (name : String)
  | subscribed (topic : String)
  | removingEntity (e : Entity)
deriving DecidableEq

/-- The member state of the DetachableJoint system class.  Field
defaults (validConfig, initialized, detachRequested false; entity
handles null) are modelled from the spec, section 3, since the class
header is not among the sources. -/
structure DetachableJoint where
  modelEntity : Entity
  parentLinkEntity : Entity
  childModelName : String
  childLinkName : String
  topic : String
  suppressChildWarning : Bool
  validConfig : Bool
  initialized : Bool
  detachableJointEntity : Entity
  childLinkEntity : Entity
  detachRequested : Bool
deriving DecidableEq

/-- Modelled from the spec: the freshly constructed system instance
before Configure runs, owning model set to the configured entity. -/
def initState (e : Entity) : DetachableJoint :=
  { modelEntity := e
    parentLinkEntity := kNullEntity
    childModelName := ""
    childLinkName := ""
    topic := ""
    suppressChildWarning := false
    validConfig := false
    initialized := false
    detachableJointEntity := kNullEntity
    childLinkEntity := kNullEntity
    detachRequested := false }

/-- DetachableJoint::Configure: validates the owning model, eagerly
resolves parent_link, requires child_model and child_link, derives the
command topic (validation of topic candidates is delegated to the
transport collaborator per the spec, so the explicit override, when
present, is taken first), reads suppress_child_warning with default
false, and finally sets validConfig.  Any missing requirement returns
early with an error logged and validConfig still false. -/
def Configure (env : EcmEnv) (e : Entity) (sdf : Sdf) : DetachableJoint × List LogEvent :=
  let s0 := initState e
  if env.validModel e = false then
    (s0, [LogEvent.errNotModel])
  else
    match sdf.parentLink with
    | none => (s0, [LogEvent.errMissingParam "parent_link"])
    | some parentLinkName =>
      let s1 := { s0 with parentLinkEntity := env.linkByParentName e parentLinkName }
      if s1.parentLinkEntity = kNullEntity then
        (s1, [LogEvent.errParentLinkNotFound parentLinkName])
      else
        match sdf.childModel with
        | none => (s1, [LogEvent.errMissingParam "child_model"])
        | some cm =>
          let s2 := { s1 with childModelName := cm }
          match sdf.childLink with
          | none => (s2, [LogEvent.errMissingParam "child_link"])
          | some cl =>
            let s3 := { s2 with
              childLinkName := cl
              topic := sdf.topic.getD
                ("/model/" ++ env.modelNameOf e ++ "/detachable_joint/detach")
              suppressChildWarning := sdf.suppressChildWarning.getD false }
            ({ s3 with validConfig := true }, [])

/-- The child model entity resolved during discovery: the owning model
itself for the sentinel name, otherwise a store lookup by model type
and name. -/
def discoveredModel (s : DetachableJoint) (env : EcmEnv) : Entity :=
  if s.childModelName = "__model__" then s.modelEntity
  else env.modelByName s.childModelName

/-- First block of DetachableJoint::PreUpdate: when configured and not
yet initialized, resolve the child model and child link; on success
create the joint entity with its DetachableJoint component, subscribe to
the detach topic and set initialized; otherwise warn (the model-missing
warning is suppressible, the link-missing warning is not). -/
def discovery (s : DetachableJoint) (env : EcmEnv) (st : EcmState) :
    DetachableJoint × EcmState × List LogEvent :=
  if s.validConfig = true ∧ s.initialized = false then
    if discoveredModel s env ≠ kNullEntity then
      if env.linkByParentName (discoveredModel s env) s.childLinkName ≠ kNullEntity then
        ({ s with
            childLinkEntity := env.linkByParentName (discoveredModel s env) s.childLinkName
            detachableJointEntity := (EcmState.createEntity st).1
            initialized := true },
          EcmState.createJointComponent (EcmState.createEntity st).2
            (EcmState.createEntity st).1 s.parentLinkEntity
            (env.linkByParentName (discoveredModel s env) s.childLinkName) "fixed",
          [LogEvent.subscribed s.topic])
      else
        ({ s with
            childLinkEntity := env.linkByParentName (discoveredModel s env) s.childLinkName },
          st, [LogEvent.childLinkNotFound s.childLinkName])
    else
      if s.suppressChildWarning = false then
        (s, st, [LogEvent.childModelNotFound s.childModelName])
      else
        (s, st, [])
  else
    (s, st, [])

/-- Second block of DetachableJoint::PreUpdate: when initialized with a
pending detach request and a non-null joint entity, request removal of
the joint entity, clear the handle and clear the request flag. -/
def detachPhase (s : DetachableJoint) (st : EcmState) :
    DetachableJoint × EcmState × List LogEvent :=
  if s.initialized = true ∧ s.detachRequested = true ∧
      s.detachableJointEntity ≠ kNullEntity then
    ({ s with detachableJointEntity := kNullEntity, detachRequested := false },
      EcmState.requestRemoveEntity st s.detachableJointEntity,
      [LogEvent.removingEntity s.detachableJointEntity])
  else
    (s, st, [])

/-- DetachableJoint::PreUpdate: the discovery block followed by the
detach block, exactly in source order. -/
def PreUpdate (s : DetachableJoint) (env : EcmEnv) (st : EcmState) :
    DetachableJoint × EcmState × List LogEvent :=
  let r1 := discovery s env st
  let r2 := detachPhase r1.1 r1.2.1
  (r2.1, r2.2.1, r1.2.2 ++ r2.2.2)

/-- DetachableJoint::OnDetachRequest: sets the detachRequested flag;
the message content is ignored. -/
def OnDetachRequest (s : DetachableJoint) : DetachableJoint :=
  { s with detachRequested := true }

/-- One operation applied to a controller instance: a simulation step
against a given store-query environment, or receipt of a detach
command. -/
inductive Op
  | step (env : EcmEnv)
  | detach

/-- Runs a sequence of operations, threading the controller state and
the store-mutation state. -/
def run (s : DetachableJoint) (st : EcmState) : List Op → DetachableJoint × EcmState
  | [] => (s, st)
  | Op.step env :: ops =>
    let r := PreUpdate s env st
    run r.1 r.2.1 ops
  | Op.detach :: ops => run (OnDetachRequest s) st ops

/-- Runs `k` consecutive PreUpdate steps, step `j` seeing the
store-query environment `envs j`. -/
def runSteps (envs : Nat → EcmEnv) (s : DetachableJoint) (st : EcmState) :
    Nat → DetachableJoint × EcmState
  | 0 => (s, st)
  | k + 1 =>
    let r := runSteps envs s st k
    let u := PreUpdate r.1 (envs k) r.2
    (u.1, u.2.1)

/-- Discovery would succeed for state `s` against environment `env`:
the child model resolves and the child link resolves inside it. -/
def resolvable (s : DetachableJoint) (env : EcmEnv) : Bool :=
  decide (discoveredModel s env ≠ kNullEntity ∧
    env.linkByParentName (discoveredModel s env) s.childLinkName ≠ kNullEntity)

/-- True when this PreUpdate call issued a removal request, observable
as a change of the store's removal-request log. -/
def stepRemoved (s : DetachableJoint) (env : EcmEnv) (st : EcmState) : Bool :=
  decide ((PreUpdate s env st).2.1.removeRequests ≠ st.removeRequests)

/-- States reachable from a freshly configured instance by any sequence
of PreUpdate and OnDetachRequest calls, paired with a ghost flag that
records whether a detach has been processed by some step. -/
inductive Reach : DetachableJoint → Bool → Prop
  | configured (env : EcmEnv) (e : Entity) (sdf : Sdf) :
      Reach (Configure env e sdf).1 false
  | stepped (s : DetachableJoint) (p : Bool) (env : EcmEnv) (st : EcmState) :
      Reach s p → Reach (PreUpdate s env st).1 (p || stepRemoved s env st)
  | detached (s : DetachableJoint) (p : Bool) :
      Reach s p → Reach (OnDetachRequest s) p

/-
The typed event channels of the ignition::gazebo::events header.  Each
channel is ignition::common::EventT instantiated at a callback
signature and a unique tag struct, so channel identity is the pair
(signature, tag).
-/

/-- The distinct tag structs of the events header. -/
inductive EventTag
  | PauseTag
  | StopTag
  | LoadPluginsTag
  | RenderTag
  | EnableSensorsTag
  | RemoveFromECMTag
  | AddToECMTag
  | UpdateGUIECMTag
deriving DecidableEq

/-- The C++ parameter types appearing in the callback signatures of the
events header. -/
inductive PayloadTy
  | boolTy
  | entityTy
  | sdfElementPtrTy
  | uintTy
  | stringTy
  | ecmConstRefTy
  | updateInfoConstRefTy
deriving DecidableEq

/-- An EventT instantiation: the callback parameter list and the tag
struct. -/
structure EventChannel where
  sig : List PayloadTy
  tag : EventTag
deriving DecidableEq

namespace events

def Pause : EventChannel := ⟨[PayloadTy.boolTy], EventTag.PauseTag⟩

def Stop : EventChannel := ⟨[], EventTag.StopTag⟩

def LoadPlugins : EventChannel :=
  ⟨[PayloadTy.entityTy, PayloadTy.sdfElementPtrTy], EventTag.LoadPluginsTag⟩

def Render : EventChannel := ⟨[], EventTag.RenderTag⟩

def EnableSensors : EventChannel := ⟨[PayloadTy.boolTy], EventTag.EnableSensorsTag⟩

def RemoveFromECM : EventChannel := ⟨[PayloadTy.uintTy], EventTag.RemoveFromECMTag⟩

def AddToECM : EventChannel :=
  ⟨[PayloadTy.uintTy, PayloadTy.stringTy, PayloadTy.uintTy], EventTag.AddToECMTag⟩

def UpdateGUIECM : EventChannel :=
  ⟨[PayloadTy.ecmConstRefTy, PayloadTy.updateInfoConstRefTy], EventTag.UpdateGUIECMTag⟩

/-- All channels declared by the events header, in header order. -/
def allChannels : List EventChannel :=
  [Pause, Stop, LoadPlugins, Render, EnableSensors, RemoveFromECM, AddToECM, UpdateGUIECM]

end events

end GzSim

namespace GzSim

/-
Concrete inputs used by the witness theorems.
-/

/-- A concrete store-query environment: entity 1 is a valid model named
"m" with link "pl" = entity 2; the child model "cm" is entity 5 and its
link "cl" is entity 6. -/
def envW : EcmEnv :=
  { validModel := fun e => decide (e = 1)
    modelNameOf := fun _ => "m"
    modelByName := fun n => if n = "cm" then 5 else kNullEntity
    linkByParentName := fun m l =>
      if m = 1 ∧ l = "pl" then 2 else if m = 5 ∧ l = "cl" then 6 else kNullEntity }

/-- A concrete store-query environment in which no lookup succeeds. -/
def envEmptyW : EcmEnv :=
  { validModel := fun _ => false
    modelNameOf := fun _ => ""
    modelByName := fun _ => kNullEntity
    linkByParentName := fun _ _ => kNullEntity }

/-- A complete concrete configuration element. -/
def sdfW : Sdf :=
  { parentLink := some "pl"
    childModel := some "cm"
    childLink := some "cl"
    topic := none
    suppressChildWarning := none }

/-- A concrete configuration element missing parent_link. -/
def sdfMissingW : Sdf :=
  { parentLink := none
    childModel := some "cm"
    childLink := some "cl"
    topic := none
    suppressChildWarning := none }

/-- A concrete initialized controller state with a live joint entity. -/
def sInitW : DetachableJoint :=
  { modelEntity := 1
    parentLinkEntity := 2
    childModelName := "cm"
    childLinkName := "cl"
    topic := "t"
    suppressChildWarning := false
    validConfig := true
    initialized := true
    detachableJointEntity := 7
    childLinkEntity := 6
    detachRequested := false }

/-- A concrete store-mutation state. -/
def stW : EcmState :=
  { nextEntity := 10, joints := [], removeRequests := [] }

/-- A concrete store-query environment whose owning model 1 is valid
but in which no link lookup succeeds. -/
def envParentBadW : EcmEnv :=
  { validModel := fun e => decide (e = 1)
    modelNameOf := fun _ => "m"
    modelByName := fun _ => kNullEntity
    linkByParentName := fun _ _ => kNullEntity }

/-- Equality of the fields of the controller state that gate and feed
discovery; PreUpdate never changes them. -/
def sameStatic (a b : DetachableJoint) : Prop :=
  a.modelEntity = b.modelEntity ∧ a.childModelName = b.childModelName ∧
  a.childLinkName = b.childLinkName ∧ a.validConfig = b.validConfig

/-- A configured but uninitialized concrete controller state. -/
def sPendingW : DetachableJoint :=
  { sInitW with initialized := false, detachableJointEntity := kNullEntity }

/-- A concrete controller state after a processed detach. -/
def sDetachedW : DetachableJoint :=
  { sInitW with detachableJointEntity := kNullEntity }

/-
Basic lemmas about the two PreUpdate blocks.
-/

theorem discovery_skip (s : DetachableJoint) (env : EcmEnv) (st : EcmState)
    (h : ¬(s.validConfig = true ∧ s.initialized = false)) :
    discovery s env st = (s, st, []) := by
  simp [discovery, h]

theorem detachPhase_skip (s : DetachableJoint) (st : EcmState)
    (h : ¬(s.initialized = true ∧ s.detachRequested = true ∧
      s.detachableJointEntity ≠ kNullEntity)) :
    detachPhase s st = (s, st, []) := by
  simp only [detachPhase, if_neg h]

theorem detachPhase_fire (s : DetachableJoint) (st : EcmState)
    (h : s.initialized = true ∧ s.detachRequested = true ∧
      s.detachableJointEntity ≠ kNullEntity) :
    detachPhase s st =
      ({ s with detachableJointEntity := kNullEntity, detachRequested := false },
        EcmState.requestRemoveEntity st s.detachableJointEntity,
        [LogEvent.removingEntity s.detachableJointEntity]) := by
  simp only [detachPhase, if_pos h]

theorem preUpdate_inert (s : DetachableJoint) (env : EcmEnv) (st : EcmState)
    (hi : s.initialized = true) (hd : s.detachRequested = false) :
    PreUpdate s env st = (s, st, []) := by
  have h1 : discovery s env st = (s, st, []) := discovery_skip s env st (by simp [hi])
  have h2 : detachPhase s st = (s, st, []) := detachPhase_skip s st (by simp [hd])
  simp [PreUpdate, h1, h2]

theorem preUpdate_detached_inert (s : DetachableJoint) (env : EcmEnv) (st : EcmState)
    (hi : s.initialized = true) (hj : s.detachableJointEntity = kNullEntity) :
    PreUpdate s env st = (s, st, []) := by
  have h1 : discovery s env st = (s, st, []) := discovery_skip s env st (by simp [hi])
  have h2 : detachPhase s st = (s, st, []) := detachPhase_skip s st (by simp [hj])
  simp [PreUpdate, h1, h2]

theorem Configure_not_initialized (env : EcmEnv) (e : Entity) (sdf : Sdf) :
    (Configure env e sdf).1.initialized = false := by
  simp only [Configure]
  repeat' split
  all_goals simp [initState]

theorem Configure_joint_null (env : EcmEnv) (e : Entity) (sdf : Sdf) :
    (Configure env e sdf).1.detachableJointEntity = kNullEntity := by
  simp only [Configure]
  repeat' split
  all_goals simp [initState]

theorem Configure_validConfig_iff (env : EcmEnv) (e : Entity) (sdf : Sdf) :
    (Configure env e sdf).1.validConfig = true ↔
      (env.validModel e = true ∧ ∃ pl, sdf.parentLink = some pl ∧
        env.linkByParentName e pl ≠ kNullEntity ∧
        sdf.childModel.isSome = true ∧ sdf.childLink.isSome = true) := by
  simp only [Configure]
  repeat' split <;> simp_all [initState]

theorem preUpdate_invalid (s : DetachableJoint) (env : EcmEnv) (st : EcmState)
    (hv : s.validConfig = false) (hi : s.initialized = false) :
    PreUpdate s env st = (s, st, []) := by
  have h1 : discovery s env st = (s, st, []) := discovery_skip s env st (by simp [hv])
  have h2 : detachPhase s st = (s, st, []) := detachPhase_skip s st (by simp [hi])
  simp [PreUpdate, h1, h2]

theorem run_invalid : ∀ (ops : List Op) (s : DetachableJoint),
    s.validConfig = false → s.initialized = false → ∀ st : EcmState,
      (run s st ops).1.validConfig = false ∧
      (run s st ops).1.initialized = false ∧
      (run s st ops).1.parentLinkEntity = s.parentLinkEntity ∧
      (run s st ops).2 = st := by
  intro ops
  induction ops with
  | nil => intro s hv hi st; exact ⟨hv, hi, rfl, rfl⟩
  | cons op rest ih =>
    intro s hv hi st
    cases op with
    | step env =>
      have h := preUpdate_invalid s env st hv hi
      simp only [run, h]
      exact ih s hv hi st
    | detach =>
      have h := ih (OnDetachRequest s) (by simp [OnDetachRequest, hv])
        (by simp [OnDetachRequest, hi]) st
      simp only [run]
      simpa [OnDetachRequest] using h

theorem sameStatic_refl (a : DetachableJoint) : sameStatic a a :=
  ⟨rfl, rfl, rfl, rfl⟩

theorem sameStatic_trans {a b c : DetachableJoint}
    (h1 : sameStatic a b) (h2 : sameStatic b c) : sameStatic a c :=
  ⟨h1.1.trans h2.1, h1.2.1.trans h2.2.1, h1.2.2.1.trans h2.2.2.1,
    h1.2.2.2.trans h2.2.2.2⟩

theorem preUpdate_fst (s : DetachableJoint) (env : EcmEnv) (st : EcmState) :
    (PreUpdate s env st).1 =
      (detachPhase (discovery s env st).1 (discovery s env st).2.1).1 := rfl

theorem preUpdate_snd (s : DetachableJoint) (env : EcmEnv) (st : EcmState) :
    (PreUpdate s env st).2.1 =
      (detachPhase (discovery s env st).1 (discovery s env st).2.1).2.1 := rfl

theorem runSteps_succ (envs : Nat → EcmEnv) (s : DetachableJoint) (st : EcmState)
    (k : Nat) :
    runSteps envs s st (k + 1) =
      ((PreUpdate (runSteps envs s st k).1 (envs k) (runSteps envs s st k).2).1,
        (PreUpdate (runSteps envs s st k).1 (envs k) (runSteps envs s st k).2).2.1) :=
  rfl

theorem discovery_static (s : DetachableJoint) (env : EcmEnv) (st : EcmState) :
    sameStatic (discovery s env st).1 s := by
  unfold discovery sameStatic
  repeat' split
  all_goals simp

theorem detachPhase_static (s : DetachableJoint) (st : EcmState) :
    sameStatic (detachPhase s st).1 s := by
  unfold detachPhase sameStatic
  split <;> simp

theorem detachPhase_init (s : DetachableJoint) (st : EcmState) :
    (detachPhase s st).1.initialized = s.initialized := by
  unfold detachPhase
  split <;> simp

theorem preUpdate_static (s : DetachableJoint) (env : EcmEnv) (st : EcmState) :
    sameStatic (PreUpdate s env st).1 s := by
  rw [preUpdate_fst]
  exact sameStatic_trans (detachPhase_static _ _) (discovery_static s env st)

theorem resolvable_congr (a b : DetachableJoint) (env : EcmEnv)
    (h : sameStatic a b) : resolvable a env = resolvable b env := by
  obtain ⟨h1, h2, h3, h4⟩ := h
  simp [resolvable, discoveredModel, h1, h2, h3]

theorem discovery_model_missing (s : DetachableJoint) (env : EcmEnv) (st : EcmState)
    (hv : s.validConfig = true) (hi : s.initialized = false)
    (hm : discoveredModel s env = kNullEntity) :
    (discovery s env st).1 = s ∧ (discovery s env st).2.1 = st := by
  unfold discovery
  rw [if_pos ⟨hv, hi⟩, if_neg (by simp [hm])]
  split <;> simp

theorem preUpdate_init_mono (s : DetachableJoint) (env : EcmEnv) (st : EcmState)
    (hi : s.initialized = true) : (PreUpdate s env st).1.initialized = true := by
  rw [preUpdate_fst, detachPhase_init]
  rw [discovery_skip s env st (by simp [hi])]
  exact hi

theorem preUpdate_discovery_fail (s : DetachableJoint) (env : EcmEnv) (st : EcmState)
    (hv : s.validConfig = true) (hi : s.initialized = false)
    (hr : resolvable s env = false) :
    (PreUpdate s env st).1.initialized = false := by
  rw [preUpdate_fst, detachPhase_init]
  by_cases hm : discoveredModel s env = kNullEntity
  · rw [(discovery_model_missing s env st hv hi hm).1]
    exact hi
  · have hl : env.linkByParentName (discoveredModel s env) s.childLinkName =
        kNullEntity := by
      by_contra hl
      have : resolvable s env = true := by simp [resolvable, hm, hl]
      rw [this] at hr
      cases hr
    have h1 : discovery s env st =
        ({ s with childLinkEntity := kNullEntity },
          st, [LogEvent.childLinkNotFound s.childLinkName]) := by
      simp [discovery, hv, hi, hm, hl]
    rw [h1]
    exact hi

theorem preUpdate_discovery_found (s : DetachableJoint) (env : EcmEnv) (st : EcmState)
    (hv : s.validConfig = true) (hi : s.initialized = false)
    (hr : resolvable s env = true) :
    (PreUpdate s env st).1.initialized = true := by
  rw [preUpdate_fst, detachPhase_init]
  rw [resolvable, decide_eq_true_eq] at hr
  unfold discovery
  rw [if_pos ⟨hv, hi⟩, if_pos hr.1, if_pos hr.2]

/-- C8: the events header defines exactly eight channels with the
stated payload signatures, and distinct channels are distinct types
even where payload signatures coincide (pause vs enable-sensors and
stop vs render share signatures yet differ). -/
theorem events_eight_distinct_channels :
    events.allChannels.length = 8 ∧
    events.allChannels.Nodup ∧
    events.Pause.sig = [PayloadTy.boolTy] ∧
    events.Stop.sig = [] ∧
    events.LoadPlugins.sig = [PayloadTy.entityTy, PayloadTy.sdfElementPtrTy] ∧
    events.Render.sig = [] ∧
    events.EnableSensors.sig = [PayloadTy.boolTy] ∧
    events.RemoveFromECM.sig = [PayloadTy.uintTy] ∧
    events.AddToECM.sig = [PayloadTy.uintTy, PayloadTy.stringTy, PayloadTy.uintTy] ∧
    events.UpdateGUIECM.sig = [PayloadTy.ecmConstRefTy, PayloadTy.updateInfoConstRefTy] ∧
    events.Pause.sig = events.EnableSensors.sig ∧ events.Pause ≠ events.EnableSensors ∧
    events.Stop.sig = events.Render.sig ∧ events.Stop ≠ events.Render := by
  decide

/-- C1: from any initialized state with a live joint entity, a detach
command followed by one step requests removal of exactly that joint
entity (and performs no other store mutation), nulls the joint handle
and clears the request flag. -/
theorem detach_correctness (s : DetachableJoint) (env : EcmEnv) (st : EcmState)
    (hi : s.initialized = true) (hj : s.detachableJointEntity ≠ kNullEntity) :
    (PreUpdate (OnDetachRequest s) env st).1.detachableJointEntity = kNullEntity ∧
    (PreUpdate (OnDetachRequest s) env st).1.detachRequested = false ∧
    (PreUpdate (OnDetachRequest s) env st).2.1.removeRequests =
      s.detachableJointEntity :: st.removeRequests ∧
    (PreUpdate (OnDetachRequest s) env st).2.1.joints = st.joints ∧
    (PreUpdate (OnDetachRequest s) env st).2.1.nextEntity = st.nextEntity := by
  have h1 : discovery (OnDetachRequest s) env st = (OnDetachRequest s, st, []) :=
    discovery_skip _ env st (by simp [OnDetachRequest, hi])
  have h2 : detachPhase (OnDetachRequest s) st =
      ({ OnDetachRequest s with
          detachableJointEntity := kNullEntity, detachRequested := false },
        EcmState.requestRemoveEntity st (OnDetachRequest s).detachableJointEntity,
        [LogEvent.removingEntity (OnDetachRequest s).detachableJointEntity]) :=
    detachPhase_fire _ st (by simp [OnDetachRequest, hi, hj])
  simp only [PreUpdate, h1, h2]
  simp [OnDetachRequest, EcmState.requestRemoveEntity]

/-- Witness for C1 at a concrete initialized state. -/
theorem detach_correctness_witness :
    (PreUpdate (OnDetachRequest sInitW) envW stW).1.detachableJointEntity = kNullEntity ∧
    (PreUpdate (OnDetachRequest sInitW) envW stW).1.detachRequested = false ∧
    (PreUpdate (OnDetachRequest sInitW) envW stW).2.1.removeRequests =
      sInitW.detachableJointEntity :: stW.removeRequests ∧
    (PreUpdate (OnDetachRequest sInitW) envW stW).2.1.joints = stW.joints ∧
    (PreUpdate (OnDetachRequest sInitW) envW stW).2.1.nextEntity = stW.nextEntity :=
  detach_correctness sInitW envW stW (by decide) (by decide)

/-- C5: from any initialized state with no pending detach request, any
number of further steps leaves the controller state and the store
untouched. -/
theorem steady_state_no_mutation (s : DetachableJoint) (st : EcmState)
    (hi : s.initialized = true) (hd : s.detachRequested = false) :
    ∀ envs : List EcmEnv, run s st (envs.map Op.step) = (s, st) := by
  intro envs
  induction envs with
  | nil => rfl
  | cons env rest ih =>
    have h := preUpdate_inert s env st hi hd
    simp only [List.map_cons, run, h]
    exact ih

/-- Witness for C5 at a concrete initialized state and two steps. -/
theorem steady_state_no_mutation_witness :
    run sInitW stW ([envW, envEmptyW].map Op.step) = (sInitW, stW) :=
  steady_state_no_mutation sInitW stW (by decide) (by decide) [envW, envEmptyW]

/-- C2: a configuration missing parent_link, child_model or child_link
leaves validConfig false, and no sequence of later steps and detach
commands ever mutates the entity store. -/
theorem config_missing_inert (env : EcmEnv) (e : Entity) (sdf : Sdf)
    (h : sdf.parentLink = none ∨ sdf.childModel = none ∨ sdf.childLink = none) :
    (Configure env e sdf).1.validConfig = false ∧
    ∀ (st : EcmState) (ops : List Op), (run (Configure env e sdf).1 st ops).2 = st := by
  have hv : (Configure env e sdf).1.validConfig = false := by
    cases hvc : (Configure env e sdf).1.validConfig
    · rfl
    · exfalso
      obtain ⟨-, pl, hpl, -, hcm, hcl⟩ := (Configure_validConfig_iff env e sdf).mp hvc
      rcases h with h | h | h
      · rw [h] at hpl; cases hpl
      · rw [h] at hcm; cases hcm
      · rw [h] at hcl; cases hcl
  refine ⟨hv, fun st ops => ?_⟩
  exact (run_invalid ops (Configure env e sdf).1 hv
    (Configure_not_initialized env e sdf) st).2.2.2

/-- Witness for C2: a configuration missing parent_link, followed by a
step, a detach command and another step. -/
theorem config_missing_inert_witness :
    (Configure envW 1 sdfMissingW).1.validConfig = false ∧
    (run (Configure envW 1 sdfMissingW).1 stW
      [Op.step envW, Op.detach, Op.step envW]).2 = stW :=
  have h := config_missing_inert envW 1 sdfMissingW (Or.inl rfl)
  ⟨h.1, h.2 stW [Op.step envW, Op.detach, Op.step envW]⟩

theorem Configure_parent_link_missing (env : EcmEnv) (e : Entity) (sdf : Sdf)
    (pl : String) (hm : env.validModel e = true) (hp : sdf.parentLink = some pl)
    (hn : env.linkByParentName e pl = kNullEntity) :
    Configure env e sdf =
      ({ initState e with parentLinkEntity := kNullEntity },
        [LogEvent.errParentLinkNotFound pl]) := by
  simp [Configure, hp, hm, hn]

/-- C9: a present parent_link naming a link absent from the owning
model at Configure time is resolved eagerly, logged as an error, and
fatal: validConfig stays false, the parent link handle stays null and
the store is never mutated by any later step or detach command. -/
theorem parent_link_eager_fatal (env : EcmEnv) (e : Entity) (sdf : Sdf) (pl : String)
    (hm : env.validModel e = true) (hp : sdf.parentLink = some pl)
    (hn : env.linkByParentName e pl = kNullEntity) :
    (Configure env e sdf).1.validConfig = false ∧
    LogEvent.errParentLinkNotFound pl ∈ (Configure env e sdf).2 ∧
    ∀ (st : EcmState) (ops : List Op),
      (run (Configure env e sdf).1 st ops).1.validConfig = false ∧
      (run (Configure env e sdf).1 st ops).1.parentLinkEntity = kNullEntity ∧
      (run (Configure env e sdf).1 st ops).2 = st := by
  have hc := Configure_parent_link_missing env e sdf pl hm hp hn
  refine ⟨by rw [hc]; simp [initState], by rw [hc]; exact List.mem_singleton.mpr rfl,
    fun st ops => ?_⟩
  have hr := run_invalid ops (Configure env e sdf).1 (by rw [hc]; simp [initState])
    (Configure_not_initialized env e sdf) st
  refine ⟨hr.1, ?_, hr.2.2.2⟩
  rw [hr.2.2.1, hc]

/-- Witness for C9: parent_link "pl" does not resolve in the otherwise
valid model 1; a step and a detach command follow. -/
theorem parent_link_eager_fatal_witness :
    (Configure envParentBadW 1 sdfW).1.validConfig = false ∧
    LogEvent.errParentLinkNotFound "pl" ∈ (Configure envParentBadW 1 sdfW).2 ∧
    ((run (Configure envParentBadW 1 sdfW).1 stW [Op.step envW, Op.detach]).1.validConfig
        = false ∧
      (run (Configure envParentBadW 1 sdfW).1 stW
        [Op.step envW, Op.detach]).1.parentLinkEntity = kNullEntity ∧
      (run (Configure envParentBadW 1 sdfW).1 stW [Op.step envW, Op.detach]).2 = stW) :=
  have h := parent_link_eager_fatal envParentBadW 1 sdfW "pl" (by decide) rfl rfl
  ⟨h.1, h.2.1, h.2.2 stW [Op.step envW, Op.detach]⟩

/-- C7: during discovery, the child-model-not-found warning is emitted
iff the child model does not resolve and suppressChildWarning is false,
while the child-link-not-found warning is emitted iff the child model
resolves and the child link does not, regardless of
suppressChildWarning. -/
theorem discovery_warnings (s : DetachableJoint) (env : EcmEnv) (st : EcmState)
    (hv : s.validConfig = true) (hi : s.initialized = false) :
    ((LogEvent.childModelNotFound s.childModelName ∈ (PreUpdate s env st).2.2) ↔
      (discoveredModel s env = kNullEntity ∧ s.suppressChildWarning = false)) ∧
    ((LogEvent.childLinkNotFound s.childLinkName ∈ (PreUpdate s env st).2.2) ↔
      (discoveredModel s env ≠ kNullEntity ∧
        env.linkByParentName (discoveredModel s env) s.childLinkName = kNullEntity)) := by
  by_cases hm : discoveredModel s env = kNullEntity
  · by_cases hs : s.suppressChildWarning = false
    · have h1 : discovery s env st =
          (s, st, [LogEvent.childModelNotFound s.childModelName]) := by
        simp [discovery, hv, hi, hm, hs]
      have h2 : detachPhase s st = (s, st, []) := detachPhase_skip s st (by simp [hi])
      simp [PreUpdate, h1, h2, hm, hs]
    · have hs' : s.suppressChildWarning = true := by
        cases h : s.suppressChildWarning
        · exact absurd h hs
        · rfl
      have h1 : discovery s env st = (s, st, []) := by
        simp [discovery, hv, hi, hm, hs']
      have h2 : detachPhase s st = (s, st, []) := detachPhase_skip s st (by simp [hi])
      simp [PreUpdate, h1, h2, hm, hs']
  · by_cases hl : env.linkByParentName (discoveredModel s env) s.childLinkName = kNullEntity
    · have h1 : discovery s env st =
          ({ s with childLinkEntity := kNullEntity },
            st, [LogEvent.childLinkNotFound s.childLinkName]) := by
        simp [discovery, hv, hi, hm, hl]
      have h2 := detachPhase_skip { s with childLinkEntity := kNullEntity } st
        (by simp [hi])
      simp [PreUpdate, h1, h2, hm, hl]
    · have h1 : discovery s env st =
          ({ s with
              childLinkEntity :=
                env.linkByParentName (discoveredModel s env) s.childLinkName
              detachableJointEntity := (EcmState.createEntity st).1
              initialized := true },
            EcmState.createJointComponent (EcmState.createEntity st).2
              (EcmState.createEntity st).1 s.parentLinkEntity
              (env.linkByParentName (discoveredModel s env) s.childLinkName) "fixed",
            [LogEvent.subscribed s.topic]) := by
        simp [discovery, hv, hi, hm, hl]
      by_cases hd : s.detachRequested = true
      · have h2 := detachPhase_fire
          { s with
              childLinkEntity :=
                env.linkByParentName (discoveredModel s env) s.childLinkName
              detachableJointEntity := (EcmState.createEntity st).1
              initialized := true }
          (EcmState.createJointComponent (EcmState.createEntity st).2
            (EcmState.createEntity st).1 s.parentLinkEntity
            (env.linkByParentName (discoveredModel s env) s.childLinkName) "fixed")
          (by simp [hd, EcmState.createEntity, kNullEntity])
        simp [PreUpdate, h1, h2, hm, hl]
      · have h2 := detachPhase_skip
          { s with
              childLinkEntity :=
                env.linkByParentName (discoveredModel s env) s.childLinkName
              detachableJointEntity := (EcmState.createEntity st).1
              initialized := true }
          (EcmState.createJointComponent (EcmState.createEntity st).2
            (EcmState.createEntity st).1 s.parentLinkEntity
            (env.linkByParentName (discoveredModel s env) s.childLinkName) "fixed")
          (by simp [hd])
        simp [PreUpdate, h1, h2, hm, hl]

/-- Witness for C7 at a configured state whose child model is missing
from the store. -/
theorem discovery_warnings_witness :
    ((LogEvent.childModelNotFound
        ({ sInitW with initialized := false }).childModelName ∈
      (PreUpdate { sInitW with initialized := false } envEmptyW stW).2.2) ↔
      (discoveredModel { sInitW with initialized := false } envEmptyW = kNullEntity ∧
        ({ sInitW with initialized := false }).suppressChildWarning = false)) ∧
    ((LogEvent.childLinkNotFound
        ({ sInitW with initialized := false }).childLinkName ∈
      (PreUpdate { sInitW with initialized := false } envEmptyW stW).2.2) ↔
      (discoveredModel { sInitW with initialized := false } envEmptyW ≠ kNullEntity ∧
        envEmptyW.linkByParentName
          (discoveredModel { sInitW with initialized := false } envEmptyW)
          ({ sInitW with initialized := false }).childLinkName = kNullEntity)) :=
  discovery_warnings { sInitW with initialized := false } envEmptyW stW
    (by decide) (by decide)

/-- C3: when discovery can succeed exactly from tick N on, initialized
becomes true on the first step at or after N and never earlier;
discovery is re-attempted on every prior tick with no retry cap. -/
theorem retry_until_found (s : DetachableJoint) (st : EcmState)
    (envs : Nat → EcmEnv) (N : Nat)
    (hv : s.validConfig = true) (hi : s.initialized = false)
    (hres : ∀ j, resolvable s (envs j) = true ↔ N ≤ j) (k : Nat) :
    ((runSteps envs s st k).1.initialized = true ↔ N < k) := by
  have key : ∀ k, (k ≤ N → (runSteps envs s st k).1.initialized = false ∧
      sameStatic (runSteps envs s st k).1 s) ∧
      (N < k → (runSteps envs s st k).1.initialized = true) := by
    intro k
    induction k with
    | zero =>
      exact ⟨fun _ => ⟨hi, sameStatic_refl s⟩, fun h => absurd h (Nat.not_lt_zero N)⟩
    | succ k ih =>
      constructor
      · intro hkN
        have hklt : k < N := hkN
        obtain ⟨hinit, hstat⟩ := ih.1 (Nat.le_of_succ_le hkN)
        have hvk : (runSteps envs s st k).1.validConfig = true := by
          rw [hstat.2.2.2]; exact hv
        have hrk : resolvable (runSteps envs s st k).1 (envs k) = false := by
          rw [resolvable_congr _ _ _ hstat]
          cases hres' : resolvable s (envs k)
          · rfl
          · exact absurd ((hres k).mp hres') (Nat.not_le_of_lt hklt)
        rw [runSteps_succ]
        exact ⟨preUpdate_discovery_fail _ _ _ hvk hinit hrk,
          sameStatic_trans (preUpdate_static _ _ _) hstat⟩
      · intro hNk
        rw [runSteps_succ]
        rcases Nat.lt_succ_iff_lt_or_eq.mp hNk with h | h
        · exact preUpdate_init_mono _ _ _ (ih.2 h)
        · obtain ⟨hinit, hstat⟩ := ih.1 (Nat.le_of_eq h.symm)
          have hvk : (runSteps envs s st k).1.validConfig = true := by
            rw [hstat.2.2.2]; exact hv
          have hrk : resolvable (runSteps envs s st k).1 (envs k) = true := by
            rw [resolvable_congr _ _ _ hstat]
            exact (hres k).mpr (Nat.le_of_eq h)
          exact preUpdate_discovery_found _ _ _ hvk hinit hrk
  constructor
  · intro hinit
    by_contra hnk
    have hfalse := ((key k).1 (Nat.le_of_not_lt hnk)).1
    rw [hinit] at hfalse
    cases hfalse
  · exact (key k).2

/-- Witness for C3: every tick resolves (N = 0), so the first step
initializes. -/
theorem retry_until_found_witness :
    ((runSteps (fun _ => envW) sPendingW stW 1).1.initialized = true ↔ 0 < 1) :=
  retry_until_found sPendingW stW (fun _ => envW) 0 (by decide) (by decide)
    (fun j => iff_of_true (show resolvable sPendingW envW = true by decide)
      (Nat.zero_le j)) 1

/-- C6: once a detach has been processed (initialized with a null joint
handle), no later sequence of steps and detach commands re-runs
discovery, creates a joint entity or mutates the store; initialized is
never reset, so the instance is single-use. -/
theorem single_use_after_detach : ∀ (ops : List Op) (s : DetachableJoint)
    (st : EcmState), s.initialized = true → s.detachableJointEntity = kNullEntity →
    (run s st ops).1.initialized = true ∧
    (run s st ops).1.detachableJointEntity = kNullEntity ∧
    (run s st ops).2 = st := by
  intro ops
  induction ops with
  | nil => intro s st hi hj; exact ⟨hi, hj, rfl⟩
  | cons op rest ih =>
    intro s st hi hj
    cases op with
    | step env =>
      have h := preUpdate_detached_inert s env st hi hj
      simp only [run, h]
      exact ih s st hi hj
    | detach =>
      simp only [run]
      exact ih (OnDetachRequest s) st (by simpa [OnDetachRequest] using hi)
        (by simpa [OnDetachRequest] using hj)

/-- Witness for C6 from a concrete post-detach state, with a further
detach command and step. -/
theorem single_use_after_detach_witness :
    (run sDetachedW stW [Op.detach, Op.step envW]).1.initialized = true ∧
    (run sDetachedW stW [Op.detach, Op.step envW]).1.detachableJointEntity =
      kNullEntity ∧
    (run sDetachedW stW [Op.detach, Op.step envW]).2 = stW :=
  single_use_after_detach [Op.detach, Op.step envW] sDetachedW stW
    (by decide) (by decide)

theorem reach_aux : ∀ (s : DetachableJoint) (p : Bool), Reach s p →
    (p = true → s.initialized = true) ∧
    (s.detachableJointEntity ≠ kNullEntity ↔ (s.initialized = true ∧ p = false)) := by
  intro s p h
  induction h with
  | configured env e sdf =>
    refine ⟨fun hp => Bool.noConfusion hp, ?_⟩
    rw [Configure_joint_null, Configure_not_initialized]
    simp
  | detached s p hr ih =>
    obtain ⟨ih1, ih2⟩ := ih
    exact ⟨fun hp => by simpa [OnDetachRequest] using ih1 hp,
      by simpa [OnDetachRequest] using ih2⟩
  | stepped s p env st hr ih =>
    obtain ⟨ih1, ih2⟩ := ih
    by_cases hg : s.validConfig = true ∧ s.initialized = false
    · have hj : s.detachableJointEntity = kNullEntity := by
        by_contra hne
        have h2 := (ih2.mp hne).1
        exact absurd hg.2 (by simp [h2])
      have hp : p = false := by
        cases hpv : p
        · rfl
        · exact absurd hg.2 (by simp [ih1 hpv])
      by_cases hm : discoveredModel s env = kNullEntity
      · have hd1 := discovery_model_missing s env st hg.1 hg.2 hm
        have hfst : (PreUpdate s env st).1 = s := by
          rw [preUpdate_fst, hd1.1, hd1.2, detachPhase_skip _ _ (by simp [hg.2])]
        have hsnd : (PreUpdate s env st).2.1 = st := by
          rw [preUpdate_snd, hd1.1, hd1.2, detachPhase_skip _ _ (by simp [hg.2])]
        have hrem : stepRemoved s env st = false := by simp [stepRemoved, hsnd]
        rw [hfst, hrem, Bool.or_false]
        exact ⟨ih1, ih2⟩
      · by_cases hl : env.linkByParentName (discoveredModel s env) s.childLinkName =
            kNullEntity
        · have h1 : discovery s env st =
              ({ s with childLinkEntity := kNullEntity },
                st, [LogEvent.childLinkNotFound s.childLinkName]) := by
            simp [discovery, hg.1, hg.2, hm, hl]
          have hfst : (PreUpdate s env st).1 = { s with childLinkEntity := kNullEntity } := by
            rw [preUpdate_fst, h1, detachPhase_skip _ _ (by simp [hg.2])]
          have hsnd : (PreUpdate s env st).2.1 = st := by
            rw [preUpdate_snd, h1, detachPhase_skip _ _ (by simp [hg.2])]
          have hrem : stepRemoved s env st = false := by simp [stepRemoved, hsnd]
          rw [hfst, hrem, Bool.or_false]
          constructor
          · intro hp'
            rw [hp] at hp'
            exact Bool.noConfusion hp'
          · simp [hg.2, hj]
        · have h1 : discovery s env st =
              ({ s with
                  childLinkEntity :=
                    env.linkByParentName (discoveredModel s env) s.childLinkName
                  detachableJointEntity := (EcmState.createEntity st).1
                  initialized := true },
                EcmState.createJointComponent (EcmState.createEntity st).2
                  (EcmState.createEntity st).1 s.parentLinkEntity
                  (env.linkByParentName (discoveredModel s env) s.childLinkName) "fixed",
                [LogEvent.subscribed s.topic]) := by
            simp [discovery, hg.1, hg.2, hm, hl]
          by_cases hdq : s.detachRequested = true
          · have h2 := detachPhase_fire
              { s with
                  childLinkEntity :=
                    env.linkByParentName (discoveredModel s env) s.childLinkName
                  detachableJointEntity := (EcmState.createEntity st).1
                  initialized := true }
              (EcmState.createJointComponent (EcmState.createEntity st).2
                (EcmState.createEntity st).1 s.parentLinkEntity
                (env.linkByParentName (discoveredModel s env) s.childLinkName) "fixed")
              (by simp [hdq, EcmState.createEntity, kNullEntity])
            have hfst := preUpdate_fst s env st
            rw [h1, h2] at hfst
            have hsnd := preUpdate_snd s env st
            rw [h1, h2] at hsnd
            have hrem : stepRemoved s env st = true := by
              simp [stepRemoved, hsnd, EcmState.requestRemoveEntity,
                EcmState.createJointComponent, EcmState.createEntity, List.cons_ne_self]
            rw [hfst, hrem, Bool.or_true]
            constructor
            · intro _; simp
            · simp [kNullEntity]
          · have h2 := detachPhase_skip
              { s with
                  childLinkEntity :=
                    env.linkByParentName (discoveredModel s env) s.childLinkName
                  detachableJointEntity := (EcmState.createEntity st).1
                  initialized := true }
              (EcmState.createJointComponent (EcmState.createEntity st).2
                (EcmState.createEntity st).1 s.parentLinkEntity
                (env.linkByParentName (discoveredModel s env) s.childLinkName) "fixed")
              (by simp [hdq])
            have hfst := preUpdate_fst s env st
            rw [h1, h2] at hfst
            have hsnd := preUpdate_snd s env st
            rw [h1, h2] at hsnd
            have hrem : stepRemoved s env st = false := by
              simp [stepRemoved, hsnd, EcmState.createJointComponent,
                EcmState.createEntity]
            rw [hfst, hrem, Bool.or_false, hp]
            constructor
            · intro _; simp
            · simp [EcmState.createEntity, kNullEntity]
    · have hd1 : discovery s env st = (s, st, []) := discovery_skip s env st hg
      by_cases hdp : s.initialized = true ∧ s.detachRequested = true ∧
          s.detachableJointEntity ≠ kNullEntity
      · have h2 := detachPhase_fire s st hdp
        have hfst : (PreUpdate s env st).1 =
            { s with detachableJointEntity := kNullEntity, detachRequested := false } := by
          rw [preUpdate_fst, hd1, h2]
        have hsnd : (PreUpdate s env st).2.1 =
            EcmState.requestRemoveEntity st s.detachableJointEntity := by
          rw [preUpdate_snd, hd1, h2]
        have hrem : stepRemoved s env st = true := by
          simp [stepRemoved, hsnd, EcmState.requestRemoveEntity, List.cons_ne_self]
        rw [hfst, hrem, Bool.or_true]
        constructor
        · intro _; simp [hdp.1]
        · simp [kNullEntity]
      · have h2 := detachPhase_skip s st hdp
        have hfst : (PreUpdate s env st).1 = s := by rw [preUpdate_fst, hd1, h2]
        have hsnd : (PreUpdate s env st).2.1 = st := by rw [preUpdate_snd, hd1, h2]
        have hrem : stepRemoved s env st = false := by simp [stepRemoved, hsnd]
        rw [hfst, hrem, Bool.or_false]
        exact ⟨ih1, ih2⟩

/-- C4: in every reachable state, the joint entity handle is non-null
exactly when the instance is initialized and no detach has been
processed yet. -/
theorem joint_handle_invariant (s : DetachableJoint) (p : Bool) (h : Reach s p) :
    (s.detachableJointEntity ≠ kNullEntity ↔ (s.initialized = true ∧ p = false)) :=
  (reach_aux s p h).2

/-- Witness for C4 at a freshly configured reachable state. -/
theorem joint_handle_invariant_witness :
    ((Configure envW 1 sdfW).1.detachableJointEntity ≠ kNullEntity ↔
      ((Configure envW 1 sdfW).1.initialized = true ∧ (false : Bool) = false)) :=
  joint_handle_invariant (Configure envW 1 sdfW).1 false
    (Reach.configured envW 1 sdfW)

end GzSim
